import Mathlib

/-!
Shallow embedding of `src/stats.rs` (the usage-statistics recorder of the
cargo caching proxy): the SQLite-backed `Database` with its three tables
(`crates`, `crate_versions`, `downloads`), the aggregate queries
(`downloads`, `hits`, `bandwidth_saved`, `crates`), the snapshot `stats`,
the write entry point `add_request`, and the ingestion loop spawned by
`stat_collector`.

Modelling conventions:
* The SQLite store is modelled by explicit lists of rows, one list per table.
  Row ids reproduce `INTEGER PRIMARY KEY AUTOINCREMENT` through the
  `next_crate_id` / `next_version_id` counters, starting at 1.
* SQLite runtime values relevant to the schema are modelled by `SQLiteValue`
  (INTEGER, TEXT, NULL).  The `downloads.time` column is declared `TIMESTAMP`
  (NUMERIC affinity) but `add_request` stores `date('now')`, a TEXT value of
  shape `YYYY-MM-DD` that is not a well-formed numeric literal, so it is kept
  as TEXT by SQLite; the model therefore stores `SQLiteValue.text today`.
  The ambient `date('now')` clock is passed explicitly as a `today : String`
  argument to every operation that the SQL evaluates it in.
* SQLite's arithmetic `-` coerces both operands to numbers using CAST
  semantics (the longest numeric prefix of a TEXT value, 0 if none); its
  comparison operators order values by storage class first:
  NULL < INTEGER/REAL < TEXT < BLOB, and any comparison with NULL is NULL,
  which a WHERE clause treats as false.  `castTextNum`, `sqliteSub` and
  `sqliteGt` implement exactly this fragment (sign + decimal digits cover
  every value the schema can hold).
* `row.get::<i32>` in this rusqlite version reads the column with
  `sqlite3_column_int`, which truncates a 64-bit integer to its low 32 bits
  interpreted as a signed value; `toI32Z` models that narrowing, and Rust
  release-mode two's-complement wrapping of `i32` subtraction in `stats` is
  `toI32Z (a - b)`.
* Store faults are modelled by explicit fault flags: `addRequestF` consumes
  one flag per SQL statement it runs (5 in source order), the query wrappers
  (`downloadsQF`, ...) take one flag for `prepare` and one for `query_map`.
  A failing `.unwrap()` is the `panicked` outcome; `64-bit` sum overflow
  inside SQLite's `sum()` is not modelled.
-/

/-- SQLite runtime values of the fragment used by the schema:
INTEGER, TEXT and NULL storage classes. -/
inductive SQLiteValue
  | int (i : Int)
  | text (s : String)
  | null
deriving DecidableEq, Repr

/-- Value of the longest decimal-digit run at the head of a character list,
accumulating into `acc`; models SQLite's CAST-to-NUMERIC scan. -/
def digitsVal : List Char → Int → Int
  | [], acc => acc
  | c :: cs, acc =>
    if c.isDigit then digitsVal cs (acc * 10 + ((c.toNat : Int) - 48)) else acc

/-- SQLite CAST of a TEXT value to a number: the longest numeric
(sign + digits) prefix of the string, 0 when there is none. -/
def castTextNum (s : String) : Int :=
  match s.data with
  | List.cons '-' rest => - digitsVal rest 0
  | l => digitsVal l 0

/-- Numeric coercion SQLite applies to each operand of an arithmetic
operator. -/
def numCast : SQLiteValue → Int
  | .int i => i
  | .text s => castTextNum s
  | .null => 0

/-- SQLite subtraction `a - b`: NULL-propagating, otherwise integer
subtraction of the numeric coercions (`date('now') - $1` takes this path:
both operands are TEXT, so the result is the INTEGER difference of their
numeric prefixes). -/
def sqliteSub : SQLiteValue → SQLiteValue → SQLiteValue
  | .null, _ => .null
  | _, .null => .null
  | a, b => .int (numCast a - numCast b)

/-- Lexicographic comparison of character lists (SQLite BINARY collation). -/
def lexLtChars : List Char → List Char → Bool
  | [], [] => false
  | [], _ :: _ => true
  | _ :: _, [] => false
  | a :: as, b :: bs => if a < b then true else if b < a then false else lexLtChars as bs

/-- SQLite `a > b`: false (NULL) when either side is NULL; otherwise ordered
by storage class first — an INTEGER is less than any TEXT — and within a
class by value. -/
def sqliteGt : SQLiteValue → SQLiteValue → Bool
  | .null, _ => false
  | _, .null => false
  | .int a, .int b => b < a
  | .text _, .int _ => true
  | .int _, .text _ => false
  | .text a, .text b => lexLtChars b.data a.data

/-- Row of the `crates` table (source struct `Crate { id, name }`). -/
structure Crate where
  id : Int
  name : String
deriving DecidableEq, Repr

/-- Row of the `crate_versions` table. -/
structure CrateVersion where
  id : Int
  crate_id : Int
  version : String
deriving DecidableEq, Repr

/-- Row of the `downloads` table; `hit` holds the INTEGER 0/1 that rusqlite
binds for a Rust `bool`, `time` holds the stored SQLite value. -/
structure DownloadRow where
  version_id : Int
  time : SQLiteValue
  hit : Int
  size : Int
deriving DecidableEq, Repr

/-- State of the SQLite database owned by `Database { conn }`. -/
structure Database where
  crates : List Crate
  crate_versions : List CrateVersion
  downloads : List DownloadRow
  next_crate_id : Int
  next_version_id : Int
deriving DecidableEq, Repr

/-- `Database::new`: after `CREATE TABLE IF NOT EXISTS` on a fresh store all
three tables are empty and both AUTOINCREMENT counters start at 1. -/
def Database.new : Database :=
  { crates := [], crate_versions := [], downloads := [],
    next_crate_id := 1, next_version_id := 1 }

/-- The `Statistics` struct (four `i64` fields). -/
structure Statistics where
  downloads : Int
  hits : Int
  misses : Int
  bandwidth_saved : Int
deriving DecidableEq, Repr

/-- Narrowing of a 64-bit integer to `i32` as performed by
`sqlite3_column_int` / release-mode `as i32`: the low 32 bits read as a
two's-complement signed value (2147483648 = 2^31, 4294967296 = 2^32). -/
def toI32Z (x : Int) : Int :=
  if x % 4294967296 < 2147483648 then x % 4294967296 else x % 4294967296 - 4294967296

/-- The WHERE predicate `time > date('now') - $1` of the three aggregate
queries, with `w` the bound window string and `today` the value of
`date('now')` at query time. -/
def inWindow (today w : String) (r : DownloadRow) : Bool :=
  sqliteGt r.time (sqliteSub (.text today) (.text w))

/-- Number of rows matched by `SELECT count(*) FROM downloads WHERE time >
date('now') - $1`. -/
def downloadsCount (db : Database) (today w : String) : Nat :=
  (db.downloads.filter (inWindow today w)).length

/-- Number of rows matched when the query additionally filters `hit = 1`. -/
def hitsCount (db : Database) (today w : String) : Nat :=
  (db.downloads.filter (fun r => inWindow today w r && r.hit == 1)).length

/-- `Database::downloads`: the count read back through `row.get::<i32>`. -/
def downloadsQ (db : Database) (time today : String) : Int :=
  toI32Z (downloadsCount db today time)

/-- `Database::hits`: as `downloads` with the extra `hit = 1` filter. -/
def hitsQ (db : Database) (time today : String) : Int :=
  toI32Z (hitsCount db today time)

/-- `Database::bandwidth_saved`: `SELECT COALESCE(sum(size), 0)` over the
same window with `hit = 1`, read back as `i64`. -/
def bandwidth_savedQ (db : Database) (time today : String) : Int :=
  ((db.downloads.filter (fun r => inWindow today time r && r.hit == 1)).map
    (fun r => r.size)).sum

/-- `Database::stats`: the three aggregate queries at the literal window
`"24 hours"`, `misses` computed as the `i32` difference `downloads - hits`,
each field then widened to `i64`. -/
def Database.stats (db : Database) (today : String) : Statistics :=
  { downloads := downloadsQ db "24 hours" today
    hits := hitsQ db "24 hours" today
    misses := toI32Z (downloadsQ db "24 hours" today - hitsQ db "24 hours" today)
    bandwidth_saved := bandwidth_savedQ db "24 hours" today }

/-- The snapshot pipeline of `stats` with the window as a parameter; used to
state that `stats` is exactly this at the hardcoded literal `"24 hours"`. -/
def snapshotAt (time : String) (db : Database) (today : String) : Statistics :=
  { downloads := downloadsQ db time today
    hits := hitsQ db time today
    misses := toI32Z (downloadsQ db time today - hitsQ db time today)
    bandwidth_saved := bandwidth_savedQ db time today }

/-- `INSERT OR IGNORE INTO crates (name) VALUES ($1)` under the
`unique_crate_names` index: a no-op when the name exists, otherwise appends
a fresh AUTOINCREMENT row. -/
def insertCrateIgnore (db : Database) (name : String) : Database :=
  if db.crates.any (fun c => c.name == name) then db
  else { db with crates := db.crates ++ [{ id := db.next_crate_id, name := name }],
                 next_crate_id := db.next_crate_id + 1 }

/-- `Database::crate_id`: `SELECT id FROM crates WHERE name = $1`, first
matching row's id. -/
def crate_id (db : Database) (name : String) : Option Int :=
  (db.crates.find? (fun c => c.name == name)).map (fun c => c.id)

/-- `INSERT OR IGNORE INTO crate_versions (crate_id, version)` under the
`unique_crate_versions` index on `(crate_id, version)`. -/
def insertVersionIgnore (db : Database) (cid : Int) (version : String) : Database :=
  if db.crate_versions.any (fun v => v.crate_id == cid && v.version == version) then db
  else { db with
          crate_versions := db.crate_versions ++
            [{ id := db.next_version_id, crate_id := cid, version := version }],
          next_version_id := db.next_version_id + 1 }

/-- `Database::version_id`: lookup by `(crate_id, version)`. -/
def version_id (db : Database) (cid : Int) (version : String) : Option Int :=
  (db.crate_versions.find? (fun v => v.crate_id == cid && v.version == version)).map
    (fun v => v.id)

/-- `INSERT INTO downloads (version_id, time, hit, size) VALUES ($1,
date('now'), $2, $3)`: appends one event row, `time` stored as the TEXT
date, `hit` bound as 0/1. -/
def insertDownload (db : Database) (vid : Int) (today : String) (hit : Bool) (size : Int) :
    Database :=
  { db with downloads := db.downloads ++
      [{ version_id := vid, time := .text today, hit := if hit then 1 else 0, size := size }] }

/-- `Database::add_request` along its fault-free path: upsert the crate,
look its id up, upsert the version, look its id up, append the event.  The
`none` fallbacks are unreachable after the corresponding upsert (the source
calls `.unwrap()` there). -/
def add_request (db : Database) (crate_name crate_version : String) (hit : Bool)
    (size : Int) (today : String) : Database :=
  let db1 := insertCrateIgnore db crate_name
  match crate_id db1 crate_name with
  | none => db1
  | some cid =>
    let db2 := insertVersionIgnore db1 cid crate_version
    match version_id db2 cid crate_version with
    | none => db2
    | some vid => insertDownload db2 vid today hit size

/-- Outcome of one `add_request` call: the Rust `Result<(), rusqlite::Error>`
together with thread panics; each constructor carries the database state the
call left behind. -/
inductive AddOutcome
  | ok (db : Database)
  | err (db : Database)
  | panicked (db : Database)
deriving DecidableEq, Repr

/-- Pop the next fault flag; an exhausted schedule means no further faults. -/
def takeFault : List Bool → Bool × List Bool
  | [] => (false, [])
  | b :: r => (b, r)

/-- `Database::add_request` with fault injection, one flag per SQL statement
in source order: (1) `INSERT OR IGNORE INTO crates` — `.unwrap()`, a fault
panics; (2) the `crate_id` lookup — its internal `.unwrap()`s and the
`.unwrap()` on the `Option` panic; (3) `INSERT OR IGNORE INTO
crate_versions` — `.unwrap()`; (4) the `version_id` lookup — `.unwrap()`;
(5) the final `INSERT INTO downloads`, whose `Result` is discarded with
`let _ =`, so a fault loses the row and the function still returns
`Ok(())`. -/
def addRequestF (faults : List Bool) (db : Database) (crate_name crate_version : String)
    (hit : Bool) (size : Int) (today : String) : AddOutcome × List Bool :=
  let (f1, faults) := takeFault faults
  if f1 then (.panicked db, faults) else
  let db := insertCrateIgnore db crate_name
  let (f2, faults) := takeFault faults
  if f2 then (.panicked db, faults) else
  match crate_id db crate_name with
  | none => (.panicked db, faults)
  | some cid =>
    let (f3, faults) := takeFault faults
    if f3 then (.panicked db, faults) else
    let db := insertVersionIgnore db cid crate_version
    let (f4, faults) := takeFault faults
    if f4 then (.panicked db, faults) else
    match version_id db cid crate_version with
    | none => (.panicked db, faults)
    | some vid =>
      let (f5, faults) := takeFault faults
      if f5 then (.ok db, faults)
      else (.ok (insertDownload db vid today hit size), faults)

/-- The observation tuple sent through the `sync_channel` (struct
`CargoRequest`). -/
structure CargoRequest where
  name : String
  version : String
  hit : Bool
  size : Int
deriving DecidableEq, Repr

/-- The loop body spawned by `stat_collector`, run over a drained queue
prefix: each received request goes through
`db.add_request(...).unwrap()` — an `Ok` continues with the next request, an
`Err` would hit the loop's `.unwrap()` and a panic inside `add_request`
kills the thread; either way the remaining requests (second component of
the result) are never recorded. -/
def statCollectorRun :
    List Bool → Database → String → List CargoRequest → Database × List CargoRequest
  | _, db, _, [] => (db, [])
  | faults, db, today, req :: rest =>
    match addRequestF faults db req.name req.version req.hit req.size today with
    | (.ok db2, faults2) => statCollectorRun faults2 db2 today rest
    | (.err db2, _) => (db2, rest)
    | (.panicked db2, _) => (db2, rest)

/-- Outcome of one read query. -/
inductive QueryOutcome (α : Type)
  | ok (a : α)
  | error
  | panicked
deriving DecidableEq, Repr

/-- `Database::downloads` with fault injection: a failing
`conn.prepare(...).unwrap()` panics; a failing `stmt.query_map(...)` takes
the `_ => return 0` arm, so the caller receives the integer 0. -/
def downloadsQF (fPrep fQuery : Bool) (db : Database) (time today : String) :
    QueryOutcome Int :=
  if fPrep then .panicked
  else if fQuery then .ok 0
  else .ok (downloadsQ db time today)

/-- `Database::hits` with fault injection (same shape as `downloads`). -/
def hitsQF (fPrep fQuery : Bool) (db : Database) (time today : String) : QueryOutcome Int :=
  if fPrep then .panicked
  else if fQuery then .ok 0
  else .ok (hitsQ db time today)

/-- `Database::bandwidth_saved` with fault injection (same shape). -/
def bandwidth_savedQF (fPrep fQuery : Bool) (db : Database) (time today : String) :
    QueryOutcome Int :=
  if fPrep then .panicked
  else if fQuery then .ok 0
  else .ok (bandwidth_savedQ db time today)

/-- `Database::crates` with fault injection: a failing prepare `.unwrap()`
panics, but a failing `query_map` (and a failing row) is propagated with `?`
as a typed `rusqlite::Error`. -/
def cratesQF (fPrep fQuery : Bool) (db : Database) : QueryOutcome (List Crate) :=
  if fPrep then .panicked
  else if fQuery then .error
  else .ok db.crates

/-! Helper lemmas about the `i32` narrowing and the window predicate. -/

theorem toI32Z_of_bounds (x : Int) (h1 : -2147483648 ≤ x) (h2 : x < 2147483648) :
    toI32Z x = x := by
  unfold toI32Z
  split <;> omega

theorem toI32Z_ne_of_ge (x : Int) (h : 2147483648 ≤ x) : toI32Z x ≠ x := by
  unfold toI32Z
  split <;> omega

theorem inWindow_of_text (today w s : String) (r : DownloadRow) (h : r.time = .text s) :
    inWindow today w r = true := by
  unfold inWindow
  rw [h]
  rfl

theorem length_filter_replicate {α : Type} (n : Nat) (a : α) (p : α → Bool) :
    ((List.replicate n a).filter p).length = if p a then n else 0 := by
  induction n with
  | zero => simp
  | succ k ih =>
    rw [List.replicate_succ, List.filter_cons]
    split <;> simp_all

/-- C5 (code bug, exhibited): the snapshot operation `stats` takes no window
argument; it is exactly the parametrised snapshot pipeline `snapshotAt`
applied to the hardcoded literal window `"24 hours"`. -/
theorem c5_stats_hardcodes_24_hours (db : Database) (today : String) :
    Database.stats db today = snapshotAt "24 hours" db today := rfl

/-- C9: `add_request` never returns the `Err` variant of its declared
`Result` type: under every fault schedule and input, the call either returns
`Ok(())` (possibly having silently discarded a failed final event insert) or
panics inside the dimension lookups/inserts. -/
theorem c9_add_request_never_errs (faults : List Bool) (db : Database)
    (n v : String) (hit : Bool) (size : Int) (today : String) :
    (∃ d, (addRequestF faults db n v hit size today).1 = AddOutcome.ok d) ∨
    (∃ d, (addRequestF faults db n v hit size today).1 = AddOutcome.panicked d) := by
  unfold addRequestF
  dsimp only
  repeat' split
  all_goals first
    | exact Or.inl ⟨_, rfl⟩
    | exact Or.inr ⟨_, rfl⟩

/-- Database with one recorded event, used to exhibit a masked query fault. -/
def c4db : Database :=
  { Database.new with
    downloads := [{ version_id := 1, time := .text "2016-01-01", hit := 1, size := 100 }] }

/-- C4 counterexample: with a `query_map` fault injected, `downloads`
returns the plain integer 0 — not a typed error — on a database whose true
matching count is 1, so a store-level fault is coerced to the zero result
the claim says only an empty window may produce. -/
theorem c4_counterexample :
    downloadsQF false true c4db "24 hours" "2016-01-02" = QueryOutcome.ok 0 ∧
    downloadsQ c4db "24 hours" "2016-01-02" = 1 := by decide

/-- C4 (amended): `crates` surfaces a query-execution fault as a typed
error, but the three aggregate queries panic on a statement-preparation
fault and coerce a query-execution fault to `Ok 0`, indistinguishable from
an empty window. -/
theorem c4_amended_query_fault_behavior (db : Database) (time today : String) :
    cratesQF false true db = QueryOutcome.error ∧
    cratesQF true false db = QueryOutcome.panicked ∧
    cratesQF false false db = QueryOutcome.ok db.crates ∧
    downloadsQF false true db time today = QueryOutcome.ok 0 ∧
    hitsQF false true db time today = QueryOutcome.ok 0 ∧
    bandwidth_savedQF false true db time today = QueryOutcome.ok 0 ∧
    downloadsQF true false db time today = QueryOutcome.panicked ∧
    hitsQF true false db time today = QueryOutcome.panicked ∧
    bandwidth_savedQF true false db time today = QueryOutcome.panicked :=
  ⟨rfl, rfl, rfl, rfl, rfl, rfl, rfl, rfl, rfl⟩

/-- Database holding a single event recorded on 2016-01-01: a cache miss of
2048 bytes for serde 1.0.0. -/
def c2db : Database :=
  { crates := [{ id := 1, name := "serde" }],
    crate_versions := [{ id := 1, crate_id := 1, version := "1.0.0" }],
    downloads := [{ version_id := 1, time := .text "2016-01-01", hit := 0, size := 2048 }],
    next_crate_id := 2, next_version_id := 2 }

/-- C2 (code bug, exhibited): queried on 2016-03-01 with the window
`"0 hours"` — a window containing no recorded event — the download count is
1, not 0, and the snapshot is not all-zero.  SQLite evaluates
`date('now') - $1` as integer arithmetic on numeric prefixes (here
2016 - 0), and every stored TEXT timestamp compares greater than any
INTEGER, so the WHERE clause never filters out a row. -/
theorem c2_window_filter_is_vacuous :
    downloadsQ c2db "0 hours" "2016-03-01" = 1 ∧
    Database.stats c2db "2016-03-01" ≠
      { downloads := 0, hits := 0, misses := 0, bandwidth_saved := 0 } := by decide

/-- Database holding a single cache-hit event of 2048 bytes recorded on
2016-01-01. -/
def c8db : Database :=
  { crates := [{ id := 1, name := "serde" }],
    crate_versions := [{ id := 1, crate_id := 1, version := "1.0.0" }],
    downloads := [{ version_id := 1, time := .text "2016-01-01", hit := 1, size := 2048 }],
    next_crate_id := 2, next_version_id := 2 }

/-- C8 (code bug, exhibited): the hit event of 2016-01-01 lies outside the
trailing `"0 hours"` window queried on 2016-03-01, yet its size is summed
because the window predicate is vacuously true for stored TEXT timestamps;
on a database with no events the query does return the integer 0 (the
COALESCE default), not null and not an error. -/
theorem c8_bandwidth_saved_ignores_window :
    bandwidth_savedQ c8db "0 hours" "2016-03-01" = 2048 ∧
    bandwidth_savedQ Database.new "24 hours" "2016-03-01" = 0 := by decide

/-! Helper lemmas about the dimension upserts and lookups. -/

theorem find?_of_any {α : Type} (l : List α) (p : α → Bool) (h : l.any p = true) :
    ∃ x, l.find? p = some x := by
  induction l with
  | nil => simp at h
  | cons a as ih =>
    cases hp : p a with
    | true => exact ⟨a, List.find?_cons_of_pos _ hp⟩
    | false =>
      rw [List.any_cons, hp, Bool.false_or] at h
      obtain ⟨x, hx⟩ := ih h
      exact ⟨x, by rw [List.find?_cons_of_neg _ (by simp [hp]), hx]⟩

theorem find?_append_last {α : Type} (l : List α) (p : α → Bool) (a : α)
    (h : l.any p = false) (hp : p a = true) : (l ++ [a]).find? p = some a := by
  induction l with
  | nil =>
    rw [List.nil_append]
    exact List.find?_cons_of_pos _ hp
  | cons b bs ih =>
    rw [List.any_cons, Bool.or_eq_false_iff] at h
    rw [List.cons_append, List.find?_cons_of_neg _ (by simp [h.1]), ih h.2]

theorem crate_id_insertCrateIgnore (db : Database) (n : String) :
    ∃ cid, crate_id (insertCrateIgnore db n) n = some cid := by
  unfold insertCrateIgnore crate_id
  split
  · next h =>
    obtain ⟨x, hx⟩ := find?_of_any _ _ h
    exact ⟨x.id, by rw [hx]; rfl⟩
  · next h =>
    refine ⟨db.next_crate_id, ?eq⟩
    have hfind := find?_append_last db.crates (fun c => c.name == n)
      { id := db.next_crate_id, name := n } (by simpa using h) (by simp)
    show ((db.crates ++ [({ id := db.next_crate_id, name := n } : Crate)]).find?
        (fun c => c.name == n)).map (fun c => c.id) = some db.next_crate_id
    rw [hfind]
    rfl

theorem version_id_insertVersionIgnore (db : Database) (cid : Int) (v : String) :
    ∃ vid, version_id (insertVersionIgnore db cid v) cid v = some vid := by
  unfold insertVersionIgnore version_id
  split
  · next h =>
    obtain ⟨x, hx⟩ := find?_of_any _ _ h
    exact ⟨x.id, by rw [hx]; rfl⟩
  · next h =>
    refine ⟨db.next_version_id, ?eq⟩
    have hfind := find?_append_last db.crate_versions
      (fun w => w.crate_id == cid && w.version == v)
      { id := db.next_version_id, crate_id := cid, version := v } (by simpa using h) (by simp)
    show ((db.crate_versions ++
          [({ id := db.next_version_id, crate_id := cid, version := v } : CrateVersion)]).find?
        (fun w => w.crate_id == cid && w.version == v)).map (fun w => w.id) =
      some db.next_version_id
    rw [hfind]
    rfl

theorem insertCrateIgnore_downloads (db : Database) (n : String) :
    (insertCrateIgnore db n).downloads = db.downloads := by
  unfold insertCrateIgnore
  split <;> rfl

theorem insertVersionIgnore_downloads (db : Database) (cid : Int) (v : String) :
    (insertVersionIgnore db cid v).downloads = db.downloads := by
  unfold insertVersionIgnore
  split <;> rfl

theorem stats_downloads (db : Database) (today : String) :
    (Database.stats db today).downloads = downloadsQ db "24 hours" today := by
  simp only [Database.stats]

theorem stats_hits (db : Database) (today : String) :
    (Database.stats db today).hits = hitsQ db "24 hours" today := by
  simp only [Database.stats]

theorem stats_misses (db : Database) (today : String) :
    (Database.stats db today).misses =
      toI32Z (downloadsQ db "24 hours" today - hitsQ db "24 hours" today) := by
  simp only [Database.stats]

theorem downloadsQ_eq (db : Database) (time today : String) :
    downloadsQ db time today = toI32Z (downloadsCount db today time) := rfl

theorem hitsQ_eq (db : Database) (time today : String) :
    hitsQ db time today = toI32Z (hitsCount db today time) := rfl

/-- C3 (amended): a fault on the final `INSERT INTO downloads` is silently
discarded — `add_request` still returns `Ok` and only the event row is
lost — so the worker moves on to the next observation; but a fault on the
first dimension statement panics the worker thread through `.unwrap()`, and
every observation still in the queue is dropped, never recorded. -/
theorem c3_amended_failure_behavior :
    (∀ (db : Database) (n v : String) (hit : Bool) (size : Int) (today : String),
      ∃ d2, addRequestF [false, false, false, false, true] db n v hit size today =
          (AddOutcome.ok d2, []) ∧ d2.downloads = db.downloads) ∧
    (∀ (fs : List Bool) (db : Database) (today : String) (req : CargoRequest)
        (rest : List CargoRequest),
      statCollectorRun (true :: fs) db today (req :: rest) = (db, rest)) := by
  constructor
  · intro db n v hit size today
    obtain ⟨cid, hcid⟩ := crate_id_insertCrateIgnore db n
    obtain ⟨vid, hvid⟩ := version_id_insertVersionIgnore (insertCrateIgnore db n) cid v
    refine ⟨insertVersionIgnore (insertCrateIgnore db n) cid v, ?eq, ?dl⟩
    · unfold addRequestF
      simp [takeFault, hcid, hvid]
    · rw [insertVersionIgnore_downloads, insertCrateIgnore_downloads]
  · intro fs db today req rest
    rfl

/-- First observation of the C3 scenario (a miss for serde 1.0.0). -/
def c3req1 : CargoRequest := { name := "serde", version := "1.0.0", hit := false, size := 2048 }

/-- Second observation of the C3 scenario (a hit for libc 0.2.0). -/
def c3req2 : CargoRequest := { name := "libc", version := "0.2.0", hit := true, size := 1024 }

/-- C3 counterexample: one failing store call while recording the first
observation (the crates upsert) panics the worker thread; the second,
fault-free observation is never dequeued and recorded — the database is
left unchanged (no event rows at all) and `c3req2` is still pending — so a
single failing observation does halt ingestion for all subsequent ones. -/
theorem c3_counterexample :
    statCollectorRun [true] Database.new "2016-01-01" [c3req1, c3req2] =
      (Database.new, [c3req2]) := rfl

/-- C6: recording the same (package, version) observation twice from a fresh
store creates exactly one `crates` row and one `crate_versions` row but two
`downloads` rows: the `INSERT OR IGNORE` dimension upserts are idempotent
while the event append is not. -/
theorem c6_dimension_upserts_idempotent (n v : String) (h1 h2 : Bool) (s1 s2 : Int)
    (t1 t2 : String) :
    (add_request (add_request Database.new n v h1 s1 t1) n v h2 s2 t2).crates.length = 1 ∧
    (add_request (add_request Database.new n v h1 s1 t1) n v h2 s2 t2).crate_versions.length
      = 1 ∧
    (add_request (add_request Database.new n v h1 s1 t1) n v h2 s2 t2).downloads.length = 2 := by
  unfold add_request insertCrateIgnore crate_id insertVersionIgnore version_id insertDownload
    Database.new
  simp [List.find?, List.any]

/-- C10: the snapshot's `downloads` and `hits` fields go through the `i32`
narrowing before being widened to the 64-bit `Statistics` fields; the
reported value equals the true matching row count exactly when that count is
below 2^31 = 2147483648, and beyond that range it always misreports. -/
theorem c10_i32_narrowing (db : Database) (today : String) :
    ((Database.stats db today).downloads = (downloadsCount db today "24 hours" : Int) ↔
      downloadsCount db today "24 hours" < 2147483648) ∧
    ((Database.stats db today).hits = (hitsCount db today "24 hours" : Int) ↔
      hitsCount db today "24 hours" < 2147483648) := by
  rw [stats_downloads, stats_hits, downloadsQ_eq, hitsQ_eq]
  constructor
  · constructor
    · intro h
      by_contra hc
      exact toI32Z_ne_of_ge _ (by omega) h
    · intro h
      exact toI32Z_of_bounds _ (by omega) (by omega)
  · constructor
    · intro h
      by_contra hc
      exact toI32Z_ne_of_ge _ (by omega) h
    · intro h
      exact toI32Z_of_bounds _ (by omega) (by omega)

/-- C10 witness: at the empty database the matching count 0 lies inside the
32-bit range and the reported snapshot field equals it exactly. -/
theorem c10_i32_narrowing_witness :
    (Database.stats Database.new "2016-01-01").downloads =
      (downloadsCount Database.new "2016-01-01" "24 hours" : Int) :=
  (c10_i32_narrowing Database.new "2016-01-01").1.mpr (by decide)

/-- C1 (amended): whenever the `downloads` table holds fewer than
2^31 = 2147483648 rows — so both 32-bit counts and their difference are
representable and the narrowing is exact — the snapshot satisfies
`downloads = hits + misses`. -/
theorem c1_identity_small_table (db : Database) (today : String)
    (h : db.downloads.length < 2147483648) :
    (Database.stats db today).downloads =
      (Database.stats db today).hits + (Database.stats db today).misses := by
  have hd : downloadsCount db today "24 hours" ≤ db.downloads.length :=
    List.length_filter_le _ _
  have hh : hitsCount db today "24 hours" ≤ db.downloads.length :=
    List.length_filter_le _ _
  rw [stats_downloads, stats_hits, stats_misses, downloadsQ_eq, hitsQ_eq]
  rw [toI32Z_of_bounds ((downloadsCount db today "24 hours" : Int)) (by omega) (by omega),
    toI32Z_of_bounds ((hitsCount db today "24 hours" : Int)) (by omega) (by omega),
    toI32Z_of_bounds ((downloadsCount db today "24 hours" : Int) -
      (hitsCount db today "24 hours" : Int)) (by omega) (by omega)]
  omega

/-- C1 witness: the empty database is below the 2^31 bound and satisfies the
identity. -/
theorem c1_identity_small_table_witness :
    (Database.stats Database.new "2016-01-01").downloads =
      (Database.stats Database.new "2016-01-01").hits +
        (Database.stats Database.new "2016-01-01").misses :=
  c1_identity_small_table Database.new "2016-01-01" (by decide)

/-- Cache-hit event row used by the C1 counterexample. -/
def c1HitRow : DownloadRow :=
  { version_id := 1, time := .text "2016-01-01", hit := 1, size := 0 }

/-- Cache-miss event row used by the C1 counterexample. -/
def c1MissRow : DownloadRow :=
  { version_id := 1, time := .text "2016-01-01", hit := 0, size := 0 }

/-- Database whose `downloads` table holds exactly 2^31 rows: one hit and
2^31 - 1 misses. -/
def c1db : Database :=
  { crates := [], crate_versions := [],
    downloads := c1HitRow :: List.replicate 2147483647 c1MissRow,
    next_crate_id := 1, next_version_id := 1 }

theorem c1_filter_all (N : Nat) :
    ((List.replicate N c1MissRow).filter (inWindow "2016-01-02" "24 hours")).length = N := by
  induction N with
  | zero => rfl
  | succ k ih =>
    rw [List.replicate_succ, List.filter_cons_of_pos (by decide), List.length_cons, ih]

theorem c1_filter_miss (N : Nat) :
    ((List.replicate N c1MissRow).filter
      (fun r => inWindow "2016-01-02" "24 hours" r && r.hit == 1)).length = 0 := by
  induction N with
  | zero => rfl
  | succ k ih =>
    rw [List.replicate_succ, List.filter_cons_of_neg (by decide), ih]

/-- C1 counterexample: on the state with 2^31 matching rows (one of them a
hit) the narrowed `downloads` field reads -2147483648 while
`hits + misses = 1 + 2147483647 = 2147483648`, so the identity fails for
this database state even though the window covers every recorded
observation. -/
theorem c1_counterexample :
    ¬ ((Database.stats c1db "2016-01-02").downloads =
        (Database.stats c1db "2016-01-02").hits +
          (Database.stats c1db "2016-01-02").misses) := by
  have hall : downloadsCount c1db "2016-01-02" "24 hours" = 2147483648 := by
    show ((c1HitRow :: List.replicate 2147483647 c1MissRow).filter
        (inWindow "2016-01-02" "24 hours")).length = 2147483648
    rw [List.filter_cons_of_pos (by decide), List.length_cons, c1_filter_all]
  have hhits : hitsCount c1db "2016-01-02" "24 hours" = 1 := by
    show ((c1HitRow :: List.replicate 2147483647 c1MissRow).filter
        (fun r => inWindow "2016-01-02" "24 hours" r && r.hit == 1)).length = 1
    rw [List.filter_cons_of_pos (by decide), List.length_cons, c1_filter_miss]
  rw [stats_downloads, stats_hits, stats_misses, downloadsQ_eq, hitsQ_eq, hall, hhits]
  decide
